import Mathlib

/-!
Verification of the Head-specialist-AI chat application (`src/main.py`).

The module wires a chat UI to an agent-orchestration SDK: module-level code
loads the `GEMINI_API_KEY` environment variable and fails if it is missing,
`set_config` builds five specialist agents, wraps them as tools, and builds
an orchestrator agent plus a `RunConfig`; `chat_start` initializes the
per-session state (empty chat history, the orchestrator and the config);
`main` handles one incoming message: it appends the user turn, calls
`Runner.run` with the whole history, and on success appends the assistant
turn and stores the history, while on failure it only displays an error
string.

The embedding below is a shallow one: the remote `Runner.run` call is an
oracle parameter of type `Runner` (an `Except` value models a normal return
with a `final_output` versus a raised exception with its `str(e)`), and
Python list aliasing in the message handler is made explicit: the handler
reads `cl.user_session.get("chat_history") or []`, so the local `history`
list aliases the stored list exactly when the stored list is non-empty, and
only then do in-place appends reach the stored transcript before
`cl.user_session.set` is called.
-/

namespace HeadSpecialistAI

/-- The `AsyncOpenAI` client handle built in `set_config`. -/
structure AsyncOpenAI where
  api_key : String
  base_url : String
  deriving DecidableEq

/-- The `OpenAIChatCompletionsModel` handle built in `set_config`. -/
structure OpenAIChatCompletionsModel where
  model : String
  openai_client : AsyncOpenAI
  deriving DecidableEq

/-- The `RunConfig` record: model reference, model provider reference,
tracing flag. -/
structure RunConfig where
  model : OpenAIChatCompletionsModel
  model_provider : AsyncOpenAI
  tracing_disabled : Bool
  deriving DecidableEq

/-- A specialist agent descriptor: `Agent(name=..., instructions=...,
handoff_description=..., model=...)`. -/
structure Agent where
  name : String
  instructions : String
  handoff_description : String
  model : OpenAIChatCompletionsModel
  deriving DecidableEq

/-- The result of `Agent.as_tool(tool_name=..., tool_description=...)`: the
underlying agent plus the tool metadata. -/
structure ToolWrapper where
  agent : Agent
  tool_name : String
  tool_description : String
  deriving DecidableEq

/-- The SDK method `Agent.as_tool`, kept as a pure metadata adapter. -/
def Agent.as_tool (a : Agent) (tool_name tool_description : String) : ToolWrapper :=
  { agent := a, tool_name := tool_name, tool_description := tool_description }

/-- The orchestrator agent: `Agent(name=..., instructions=..., tools=[...],
model=...)`. It is the only agent constructed with a tool list, so it gets
its own structure to keep `Agent` non-recursive. -/
structure OrchestratorAgent where
  name : String
  instructions : String
  tools : List ToolWrapper
  model : OpenAIChatCompletionsModel
  deriving DecidableEq

/-- One `{"role": ..., "content": ...}` dictionary of the chat history. -/
structure Entry where
  role : String
  content : String
  deriving DecidableEq

/-- Module-level initialization, lines 14-17 of `src/main.py`:
`gemini_api_key = os.getenv("GEMINI_API_KEY")` followed by
`if not gemini_api_key: raise ValueError(...)`. The argument is the
environment lookup result (`none` models an absent variable); `Except.error`
models the raised `ValueError` with its message. Python truthiness makes
both `None` and the empty string falsy. -/
def module_init (gemini_env : Option String) : Except String String :=
  match gemini_env with
  | none => Except.error "Your Api key is not set please check the .env file."
  | some gemini_api_key =>
    if gemini_api_key.isEmpty then
      Except.error "Your Api key is not set please check the .env file."
    else
      Except.ok gemini_api_key

/-- Function `set_config` from `src/main.py` lines 19-98: builds the client, the
model handle, the `RunConfig`, the five specialist agents, wraps each as a
tool, and builds the orchestrator agent holding the five tools. Transcribed
literally; returns `(Orchestrator_agent, config)`. -/
def set_config (gemini_api_key : String) : OrchestratorAgent × RunConfig :=
  let client : AsyncOpenAI :=
    { api_key := gemini_api_key
      base_url := "https://generativelanguage.googleapis.com/v1beta/openai/" }
  let model : OpenAIChatCompletionsModel :=
    { model := "gemini-2.5-flash", openai_client := client }
  let config : RunConfig :=
    { model := model, model_provider := client, tracing_disabled := true }
  let Scalp_Analyzer : Agent :=
    { name := "ScalpAnalyzer Agent"
      instructions := "Analyze scalp condition based on input symptoms (e.g., dryness, oiliness, dandruff)."
      handoff_description := "Used when a scalp-related diagnosis is needed before recommending treatments."
      model := model }
  let Product_Recommender : Agent :=
    { name := "ProductRecommender Agent"
      instructions := "Suggest personalized hair products based on scalp type, hair goals, and budget."
      handoff_description := "Activated after scalp diagnosis or when the user directly asks for product advice."
      model := model }
  let Treatment_planner : Agent :=
    { name := "TreatmentPlanner Agent"
      instructions := "Create a step-by-step weekly hair care routine based on user needs (e.g., hair fall, volume, growth)."
      handoff_description := "Triggered when a user asks for a routine, recovery plan, or ongoing treatment."
      model := model }
  let Diet_Advisor : Agent :=
    { name := "DietAdvisor Agent"
      instructions := "Recommend foods or supplements that support healthy hair from within."
      handoff_description := "Used when user mentions nutritional concerns or wants internal solutions."
      model := model }
  let HairLoss_Specialist : Agent :=
    { name := "HairLossSpecialist Agent"
      instructions := "Analyze hair fall patterns and recommend medical or advanced care."
      handoff_description := "Activated when user talks about hair thinning, patchy loss, or genetic hair loss."
      model := model }
  let Scalp_Analyzer_tool := Scalp_Analyzer.as_tool "ScalpAnalyzer"
    "Analyzes the user\x27s scalp condition based on reported symptoms such as dryness, oiliness, flakiness, itching, or redness. It identifies potential scalp disorders (e.g., dandruff, seborrheic dermatitis, psoriasis) and prepares diagnostic context for treatment or product recommendations."
  let Product_Recommender_tool := Product_Recommender.as_tool "Product_Recomemnder"
    "Suggests personalized hair care products (shampoos, conditioners, serums, oils) based on the user’s scalp type, hair issues, preferences, and budget. Ensures compatibility with diagnoses provided by other agents like ScalpAnalyzer or HairLossSpecialist."
  let Treatment_planner_tool := Treatment_planner.as_tool "Treatment_Planner"
    "Creates a detailed and personalized weekly or daily hair care routine. This includes when and how to apply products, washing schedules, scalp treatments, and maintenance tips. It considers diagnostic data from other agents and user preferences (e.g., minimal steps or intensive care)."
  let Diet_Advisor_tool := Diet_Advisor.as_tool "Diet_Advisor"
    "Recommends diet improvements and supplements (vitamins, minerals, hydration tips) to support internal hair health. Tailors suggestions based on issues like hair fall, slow growth, or scalp inflammation, bridging nutrition with hair care."
  let HairLoss_Specialist_tool := HairLoss_Specialist.as_tool "Hairloss_Specialist"
    "Assesses hair thinning and hair fall severity, patterns, and potential causes (genetics, hormonal imbalance, stress, etc.). Recommends appropriate action such as medical consultation, product use, or advanced care routines. Prepares input for TreatmentPlanner if needed."
  let instruction :=
    "\n    > You are the **HairCare Specialist**, a master controller agent responsible for managing a team of specialized hair care agents. Your goal is to understand the user\x27s concerns and intelligently delegate tasks to the appropriate sub-agents.\n    >\n" ++
    "    > 🎯 **Your Responsibilities:**\n    >\n" ++
    "    > 1. Interpret user input related to hair issues, scalp condition, product needs, or routines.\n" ++
    "    > 2. Decide **which sub-agent(s)** are best suited for the task and **handoff** control to them.\n" ++
    "    > 3. Coordinate the flow between multiple agents when more than one is needed.\n" ++
    "    > 4. Ensure user gets a **complete, personalized solution** by gathering results from agents and combining them into a single, helpful response.\n    >\n" ++
    "    > 📦 **Available Sub-Agents and Their Roles:**\n    >\n" ++
    "    > * `ScalpAnalyzer`: Diagnoses scalp conditions.\n" ++
    "    > * `ProductRecommender`: Suggests hair care products.\n" ++
    "    > * `TreatmentPlanner`: Creates personalized hair care routines.\n" ++
    "    > * `DietAdvisor`: Recommends diet/supplements for healthy hair.\n" ++
    "    > * `HairLossSpecialist`: Handles advanced hair loss concerns.\n    >\n" ++
    "    > 🔄 **Interaction Strategy:**\n    >\n" ++
    "    > * Use the **minimum number of agents** required to solve the user\x27s problem fully.\n" ++
    "    > * Provide a **summary or report** to the user combining all relevant outputs."
  let Orchestrator_agent : OrchestratorAgent :=
    { name := "HairCare Specialist Agent"
      instructions := instruction
      tools := [Scalp_Analyzer_tool, Product_Recommender_tool, Treatment_planner_tool,
                Diet_Advisor_tool, HairLoss_Specialist_tool]
      model := model }
  (Orchestrator_agent, config)

/-- Per-session state held in `cl.user_session`: the `"chat_history"` list,
the `"config"` and the `"Orchestrator_agent"` keys set in `chat_start`. -/
structure SessionState where
  chat_history : List Entry
  config : RunConfig
  orchestrator : OrchestratorAgent
  deriving DecidableEq

/-- Handler `chat_start` from `src/main.py` lines 100-108: builds the orchestrator
and config via `set_config`, stores an empty chat history, the config and
the orchestrator in the session, and sends the welcome message. Returns the
initialized session state and the emitted message content. -/
def chat_start (gemini_api_key : String) : SessionState × String :=
  let oc := set_config gemini_api_key
  ({ chat_history := [], config := oc.2, orchestrator := oc.1 },
   " HairCareOS – AI-Powered Multi-Agent System for Scalp & Hair Health")

/-- Process-level startup: a session can only start after `module_init`
succeeded, since `chat_start` needs the validated key. -/
def startSession (gemini_env : Option String) : Except String (SessionState × String) :=
  (module_init gemini_env).map chat_start

/-- Oracle for `Runner.run(starting_agent=..., input=..., run_config=...)`:
`Except.ok r` models a normal return whose `final_output` is `r`;
`Except.error e` models a raised exception with `str(e) = e`. -/
abbrev Runner : Type :=
  OrchestratorAgent → List Entry → RunConfig → Except String String

/-- The argument record of one `Runner.run` call, as issued by the message
handler. -/
structure RunnerCall where
  starting_agent : OrchestratorAgent
  input : List Entry
  run_config : RunConfig
  deriving DecidableEq

/-- Everything observable from one run of the message handler: the session
state after the handler returns, the final content of the displayed message
(`msg.content` after the last `msg.update()`), and the `Runner.run` call the
handler issued. -/
structure TurnResult where
  state : SessionState
  displayed : String
  call : RunnerCall
  deriving DecidableEq

/-- The `@cl.on_message` handler `main` from `src/main.py` lines 110-154,
run against the `runner` oracle. The handler reads
`history = cl.user_session.get("chat_history") or []`: when the stored list
is empty (falsy) a fresh list is substituted, so the local `history` aliases
the stored list exactly when the stored list is non-empty. The user turn is
appended in place before the `try` block, so on the error path the stored
transcript keeps the user entry only in the aliased (non-empty) case; on the
success path `cl.user_session.set("chat_history", history)` stores the local
list, user and assistant entries included, in both cases. -/
def main (runner : Runner) (st : SessionState) (message_content : String) : TurnResult :=
  let Orchestrator_agent := st.orchestrator
  let config := st.config
  let history := st.chat_history ++ [{ role := "user", content := message_content }]
  let stored_after_user := if st.chat_history.isEmpty then st.chat_history else history
  let call : RunnerCall :=
    { starting_agent := Orchestrator_agent, input := history, run_config := config }
  match runner Orchestrator_agent history config with
  | Except.ok response_content =>
    { state :=
        { chat_history := history ++ [{ role := "assistant", content := response_content }]
          config := config
          orchestrator := Orchestrator_agent }
      displayed := response_content
      call := call }
  | Except.error e =>
    { state :=
        { chat_history := stored_after_user
          config := config
          orchestrator := Orchestrator_agent }
      displayed := "Error : " ++ e
      call := call }

/-- A whole session after `chat_start`: fold `main` over the incoming
message contents, collecting the `Runner.run` calls issued along the way.
Returns the final session state and the call trace in order. -/
def runSession (runner : Runner) : SessionState → List String → SessionState × List RunnerCall
  | st, [] => (st, [])
  | st, m :: ms =>
    let r := main runner st m
    let rest := runSession runner r.state ms
    (rest.1, r.call :: rest.2)

/-- A runner that always returns normally, with `final_output` computed by
`f`; used to model a session whose turns all succeed. -/
def okRunner (f : OrchestratorAgent → List Entry → RunConfig → String) : Runner :=
  fun a h c => Except.ok (f a h c)

/-- A runner that always raises, with `str(e) = e`. -/
def failRunner (e : String) : Runner :=
  fun _ _ _ => Except.error e

/-- Shorthand for a `{role: "user"}` entry. -/
def userE (m : String) : Entry :=
  { role := "user", content := m }

/-- Shorthand for a `{role: "assistant"}` entry. -/
def asstE (s : String) : Entry :=
  { role := "assistant", content := s }

/-- Reference transcript of an all-success session: starting from the
already-stored entries `acc`, each message contributes its user entry
followed by the assistant entry holding `g` applied to the history passed
to the orchestration call. -/
def buildT (g : List Entry → String) : List Entry → List String → List Entry
  | acc, [] => acc
  | acc, m :: ms =>
    buildT g (acc ++ [userE m] ++ [asstE (g (acc ++ [userE m]))]) ms

/-- C4: if the `GEMINI_API_KEY` environment variable is absent or empty,
module initialization raises the `ValueError` and no session can start:
`startSession` fails with the same configuration error before `chat_start`
is ever reached. -/
theorem C4_missing_key_fails_fast (env : Option String)
    (h : env = none ∨ env = some "") :
    module_init env = Except.error "Your Api key is not set please check the .env file." ∧
    startSession env = Except.error "Your Api key is not set please check the .env file." := by
  rcases h with h | h <;> subst h <;> exact ⟨rfl, rfl⟩

/-- Witness for C4 at the concrete absent-variable input. -/
theorem C4_missing_key_fails_fast_witness :
    module_init none = Except.error "Your Api key is not set please check the .env file." ∧
    startSession none = Except.error "Your Api key is not set please check the .env file." :=
  C4_missing_key_fails_fast none (Or.inl rfl)

/-- C6: `set_config` builds an orchestrator holding exactly five tool
wrappers, whose tool names are pairwise distinct and all non-empty. -/
theorem C6_five_distinct_nonempty_tool_names (k : String) :
    (set_config k).1.tools.length = 5 ∧
    ((set_config k).1.tools.map ToolWrapper.tool_name).Nodup ∧
    ((set_config k).1.tools.map ToolWrapper.tool_name).all (fun s => !s.isEmpty) = true := by
  have hnames : (set_config k).1.tools.map ToolWrapper.tool_name =
      ["ScalpAnalyzer", "Product_Recomemnder", "Treatment_Planner",
       "Diet_Advisor", "Hairloss_Specialist"] := rfl
  refine ⟨rfl, ?_, ?_⟩
  · rw [hnames]; decide
  · rw [hnames]; decide

/-- C9: `chat_start` initializes the session with an empty transcript,
stores the freshly built orchestrator and `RunConfig` from `set_config`,
and emits the fixed welcome message, whose content does not depend on any
input. -/
theorem C9_chat_start_initializes_session (k : String) :
    (chat_start k).1.chat_history = [] ∧
    (chat_start k).1.orchestrator = (set_config k).1 ∧
    (chat_start k).1.config = (set_config k).2 ∧
    (chat_start k).2 = " HairCareOS – AI-Powered Multi-Agent System for Scalp & Hair Health" ∧
    ∀ k2 : String, (chat_start k2).2 = (chat_start k).2 :=
  ⟨rfl, rfl, rfl, rfl, fun _ => rfl⟩

/-- The message handler never changes the stored `RunConfig`. -/
theorem main_state_config (r : Runner) (st : SessionState) (m : String) :
    (main r st m).state.config = st.config := by
  cases hr : r st.orchestrator (st.chat_history ++ [{ role := "user", content := m }]) st.config <;>
    simp [main, hr]

/-- The message handler never changes the stored orchestrator agent. -/
theorem main_state_orchestrator (r : Runner) (st : SessionState) (m : String) :
    (main r st m).state.orchestrator = st.orchestrator := by
  cases hr : r st.orchestrator (st.chat_history ++ [{ role := "user", content := m }]) st.config <;>
    simp [main, hr]

/-- The `Runner.run` call issued by the handler carries the stored config. -/
theorem main_call_run_config (r : Runner) (st : SessionState) (m : String) :
    (main r st m).call.run_config = st.config := by
  cases hr : r st.orchestrator (st.chat_history ++ [{ role := "user", content := m }]) st.config <;>
    simp [main, hr]

/-- The `Runner.run` call issued by the handler carries the whole stored
transcript with the new user entry appended. -/
theorem main_call_input (r : Runner) (st : SessionState) (m : String) :
    (main r st m).call.input = st.chat_history ++ [{ role := "user", content := m }] := by
  cases hr : r st.orchestrator (st.chat_history ++ [{ role := "user", content := m }]) st.config <;>
    simp [main, hr]

/-- The stored transcript after a failed turn: unchanged when it was empty
(the fresh local list was never stored), extended by the user entry when it
was non-empty (in-place aliasing). -/
theorem main_error_chat_history (r : Runner) (st : SessionState) (m e : String)
    (hf : r st.orchestrator (st.chat_history ++ [{ role := "user", content := m }]) st.config
            = Except.error e) :
    (main r st m).state.chat_history
      = if st.chat_history.isEmpty then st.chat_history
        else st.chat_history ++ [{ role := "user", content := m }] := by
  simp [main, hf]

/-- C3: on every message turn, the input passed to the orchestration call is
exactly the session's stored transcript at call time, i.e. the stored
transcript with the current user turn appended — same entries, same order,
same content, with no filtering, reordering or rewriting. -/
theorem C3_runner_input_is_stored_transcript (r : Runner) (st : SessionState) (m : String) :
    (main r st m).call.input = st.chat_history ++ [{ role := "user", content := m }] :=
  main_call_input r st m

/-- C5: when the orchestration call raises an exception `e`, the content
displayed to the user is exactly `"Error : "` followed by `str(e)`. -/
theorem C5_error_turn_display (r : Runner) (st : SessionState) (m e : String)
    (hf : r st.orchestrator (st.chat_history ++ [{ role := "user", content := m }]) st.config
            = Except.error e) :
    (main r st m).displayed = "Error : " ++ e := by
  simp [main, hf]

/-- Witness for C5 at a concrete session, message and exception. -/
theorem C5_error_turn_display_witness :
    (main (failRunner "boom") (chat_start "k").1 "hi").displayed = "Error : " ++ "boom" :=
  C5_error_turn_display (failRunner "boom") (chat_start "k").1 "hi" "boom" rfl

/-- C7: the stored transcript is append-only: a session starts with the
empty transcript, and every message turn — successful or failed — leaves the
previously stored entries unchanged in content and position and only ever
adds entries at the end. -/
theorem C7_transcript_append_only :
    (∀ k : String, (chat_start k).1.chat_history = []) ∧
    (∀ (r : Runner) (st : SessionState) (m : String),
      ∃ added, (main r st m).state.chat_history = st.chat_history ++ added) := by
  refine ⟨fun _ => rfl, fun r st m => ?_⟩
  cases hr : r st.orchestrator (st.chat_history ++ [{ role := "user", content := m }]) st.config with
  | error e =>
    by_cases hemp : st.chat_history.isEmpty
    · exact ⟨[], by simp [main, hr, hemp]⟩
    · exact ⟨[{ role := "user", content := m }], by simp [main, hr, hemp]⟩
  | ok v =>
    exact ⟨[{ role := "user", content := m }, { role := "assistant", content := v }],
      by simp [main, hr]⟩

/-- Counterexample to C1 as stated: on the very first turn of a session the
stored transcript is empty, so a failing orchestration call leaves the
stored transcript empty — the just-appended user entry is NOT persisted, and
the transcript does not equal the previous transcript with one entry
appended. -/
theorem C1_counterexample :
    (main (failRunner "boom") (chat_start "k").1 "hi").state.chat_history
      ≠ (chat_start "k").1.chat_history ++ [{ role := "user", content := "hi" }] := by
  have h : (main (failRunner "boom") (chat_start "k").1 "hi").state.chat_history = [] :=
    main_error_chat_history (failRunner "boom") (chat_start "k").1 "hi" "boom" rfl
  rw [h]
  intro hcontra
  exact List.cons_ne_nil _ _ hcontra.symm

/-- C1 (amended): when the orchestration call raises, no assistant entry is
appended; if the stored transcript was non-empty at turn start (at least one
prior successful turn), the stored transcript afterwards is exactly the
previous transcript with the just-appended user entry at the end (so a clean
2N-entry transcript becomes 2N+1 entries ending in the user entry); if the
stored transcript was empty at turn start, it stays empty and not even the
user entry is persisted. -/
theorem C1_amended_failed_turn_transcript (r : Runner) (st : SessionState) (m e : String)
    (hf : r st.orchestrator (st.chat_history ++ [{ role := "user", content := m }]) st.config
            = Except.error e) :
    (st.chat_history ≠ [] →
      (main r st m).state.chat_history
        = st.chat_history ++ [{ role := "user", content := m }] ∧
      (main r st m).state.chat_history.getLast? = some { role := "user", content := m } ∧
      (main r st m).state.chat_history.length = st.chat_history.length + 1) ∧
    (st.chat_history = [] → (main r st m).state.chat_history = []) := by
  have h := main_error_chat_history r st m e hf
  constructor
  · intro hne
    have hemp : st.chat_history.isEmpty = false := by
      cases hch : st.chat_history with
      | nil => exact absurd hch hne
      | cons a l => simp
    rw [h, hemp]
    refine ⟨rfl, ?_, by simp⟩
    simp
  · intro hnil
    rw [h, hnil]
    simp

/-- Witness for the amended C1 at a concrete non-empty stored transcript. -/
theorem C1_amended_failed_turn_transcript_witness :
    (main (failRunner "x")
        { chat_history := [{ role := "user", content := "a" },
                           { role := "assistant", content := "b" }]
          config := (set_config "k").2
          orchestrator := (set_config "k").1 } "hi").state.chat_history
      = [{ role := "user", content := "a" }, { role := "assistant", content := "b" }]
          ++ [{ role := "user", content := "hi" }] :=
  (C1_amended_failed_turn_transcript (failRunner "x")
      { chat_history := [{ role := "user", content := "a" },
                         { role := "assistant", content := "b" }]
        config := (set_config "k").2
        orchestrator := (set_config "k").1 } "hi" "x" rfl).1
    (by simp) |>.1

/-- C10: the `or []` substitution in the history retrieval means a failed
first turn (stored transcript empty) leaves the stored transcript empty —
the user entry lives only in the fresh local list and is never stored —
while a failed turn after at least one successful turn (stored transcript
non-empty) leaves the user entry persisted in the stored transcript through
in-place list mutation, even though the error path never stores the list. -/
theorem C10_error_path_aliasing (r : Runner) (st : SessionState) (m e : String)
    (hf : r st.orchestrator (st.chat_history ++ [{ role := "user", content := m }]) st.config
            = Except.error e) :
    (st.chat_history = [] → (main r st m).state.chat_history = []) ∧
    (st.chat_history ≠ [] →
      (main r st m).state.chat_history
        = st.chat_history ++ [{ role := "user", content := m }]) := by
  have h := main_error_chat_history r st m e hf
  constructor
  · intro hnil
    rw [h, hnil]
    simp
  · intro hne
    have hemp : st.chat_history.isEmpty = false := by
      cases hch : st.chat_history with
      | nil => exact absurd hch hne
      | cons a l => simp
    rw [h, hemp]
    simp

/-- Witness for C10 at the concrete empty-transcript session of
`chat_start`, with a failing first turn. -/
theorem C10_error_path_aliasing_witness :
    (main (failRunner "boom") (chat_start "k").1 "hi").state.chat_history = [] :=
  (C10_error_path_aliasing (failRunner "boom") (chat_start "k").1 "hi" "boom" rfl).1 rfl

/-- Across a whole session, the stored config never changes and every
`Runner.run` call in the trace carries the config stored at session start. -/
theorem runSession_config (r : Runner) :
    ∀ (ms : List String) (st : SessionState),
      (runSession r st ms).1.config = st.config ∧
      ((runSession r st ms).2).map RunnerCall.run_config
        = List.replicate ms.length st.config
  | [], st => ⟨rfl, rfl⟩
  | m :: ms, st => by
    have ih := runSession_config r ms (main r st m).state
    have hc := main_state_config r st m
    have hcall := main_call_run_config r st m
    refine ⟨?_, ?_⟩
    · show (runSession r (main r st m).state ms).1.config = st.config
      rw [ih.1, hc]
    · show (main r st m).call.run_config
          :: ((runSession r (main r st m).state ms).2).map RunnerCall.run_config
        = List.replicate (ms.length + 1) st.config
      rw [List.replicate_succ, hcall, ih.2, hc]

/-- C8: the `RunConfig` built at session start is passed unchanged through
every orchestration call of the session: the trace of configs received by
the `Runner.run` calls is the initial config repeated once per turn, and the
stored config after any sequence of turns is still the initial one. -/
theorem C8_config_passed_unchanged (k : String) (r : Runner) (ms : List String) :
    (runSession r (chat_start k).1 ms).1.config = (chat_start k).1.config ∧
    ((runSession r (chat_start k).1 ms).2).map RunnerCall.run_config
      = List.replicate ms.length (chat_start k).1.config :=
  runSession_config r ms (chat_start k).1


/-- In an all-success session the stored transcript is exactly the
reference transcript `buildT`. -/
theorem runSession_ok_chat_history (f : OrchestratorAgent → List Entry → RunConfig → String) :
    ∀ (ms : List String) (st : SessionState),
      ((runSession (okRunner f) st ms).1).chat_history
        = buildT (fun h => f st.orchestrator h st.config) st.chat_history ms
  | [], _ => rfl
  | m :: ms, st => runSession_ok_chat_history f ms (main (okRunner f) st m).state

/-- Lemma: `buildT` adds two entries per message. -/
theorem buildT_length (g : List Entry → String) :
    ∀ (ms : List String) (acc : List Entry),
      (buildT g acc ms).length = acc.length + 2 * ms.length
  | [], acc => by simp [buildT]
  | m :: ms, acc => by
    have ih := buildT_length g ms (acc ++ [userE m] ++ [asstE (g (acc ++ [userE m]))])
    simp only [buildT]
    rw [ih]
    simp only [List.length_append, List.length_cons, List.length_nil, List.length_singleton]
    omega

/-- Lemma: `buildT` only ever appends: the accumulator is kept unchanged as the
prefix of the result. -/
theorem buildT_take (g : List Entry → String) :
    ∀ (ms : List String) (acc : List Entry),
      (buildT g acc ms).take acc.length = acc
  | [], acc => by simp [buildT]
  | m :: ms, acc => by
    have ih := buildT_take g ms (acc ++ [userE m] ++ [asstE (g (acc ++ [userE m]))])
    simp only [buildT]
    have hmin : min acc.length (acc ++ [userE m] ++ [asstE (g (acc ++ [userE m]))]).length
        = acc.length := by
      simp only [List.length_append, List.length_singleton]
      omega
    have h1 : (buildT g (acc ++ [userE m] ++ [asstE (g (acc ++ [userE m]))]) ms).take acc.length
        = ((buildT g (acc ++ [userE m] ++ [asstE (g (acc ++ [userE m]))]) ms).take
            (acc ++ [userE m] ++ [asstE (g (acc ++ [userE m]))]).length).take acc.length := by
      rw [List.take_take, hmin]
    rw [h1, ih, List.append_assoc, List.take_left' rfl]

/-- The entry pair contributed by message `i`: the user entry holds the
message, the assistant entry holds `g` applied to the transcript prefix
that the turn's orchestration call received. -/
theorem buildT_getElem (g : List Entry → String) :
    ∀ (ms : List String) (acc : List Entry) (i : Nat) (hi : i < ms.length),
      (buildT g acc ms)[acc.length + 2 * i]? = some (userE (ms.get ⟨i, hi⟩)) ∧
      (buildT g acc ms)[acc.length + 2 * i + 1]?
          = some (asstE (g ((buildT g acc ms).take (acc.length + 2 * i + 1))))
  | [], _, i, hi => absurd hi (by simp)
  | m :: ms, acc, 0, hi => by
    simp only [buildT]
    have htake := buildT_take g ms (acc ++ [userE m] ++ [asstE (g (acc ++ [userE m]))])
    have hlen2 : (acc ++ [userE m] ++ [asstE (g (acc ++ [userE m]))]).length
        = acc.length + 2 := by
      simp only [List.length_append, List.length_singleton]
    have hget : ∀ j : Nat, j < 2 →
        (buildT g (acc ++ [userE m] ++ [asstE (g (acc ++ [userE m]))]) ms)[acc.length + j]?
          = ([userE m] ++ [asstE (g (acc ++ [userE m]))])[j]? := by
      intro j hj
      have hj2 : acc.length + j
          < (acc ++ [userE m] ++ [asstE (g (acc ++ [userE m]))]).length := by
        rw [hlen2]
        omega
      rw [← List.getElem?_take_of_lt hj2, htake, List.append_assoc,
        List.getElem?_append_right (Nat.le_add_right acc.length j),
        Nat.add_sub_cancel_left]
    have htake1 : (buildT g (acc ++ [userE m] ++ [asstE (g (acc ++ [userE m]))]) ms).take
          (acc.length + 1)
        = acc ++ [userE m] := by
      have hmin1 : min (acc.length + 1)
          (acc ++ [userE m] ++ [asstE (g (acc ++ [userE m]))]).length = acc.length + 1 := by
        rw [hlen2]
        omega
      have h1 : (buildT g (acc ++ [userE m] ++ [asstE (g (acc ++ [userE m]))]) ms).take
            (acc.length + 1)
          = ((buildT g (acc ++ [userE m] ++ [asstE (g (acc ++ [userE m]))]) ms).take
              (acc ++ [userE m] ++ [asstE (g (acc ++ [userE m]))]).length).take
              (acc.length + 1) := by
        rw [List.take_take, hmin1]
      rw [h1, htake, List.take_left' (by simp)]
    refine ⟨?_, ?_⟩
    · have h0 := hget 0 (by omega)
      simpa using h0
    · have h1 := hget 1 (by omega)
      simp only [Nat.mul_zero, Nat.add_zero] at *
      rw [h1, htake1]
      rfl
  | m :: ms, acc, i + 1, hi => by
    simp only [buildT]
    have ih := buildT_getElem g ms (acc ++ [userE m] ++ [asstE (g (acc ++ [userE m]))]) i
      (by simpa using Nat.lt_of_succ_lt_succ (by simpa using hi))
    have hlen2 : (acc ++ [userE m] ++ [asstE (g (acc ++ [userE m]))]).length
        = acc.length + 2 := by
      simp only [List.length_append, List.length_singleton]
    rw [hlen2] at ih
    have e1 : acc.length + 2 * (i + 1) = acc.length + 2 + 2 * i := by omega
    rw [e1]
    exact ih

/-- C2: in a session whose turns all succeed, the stored transcript after
`N` turns has exactly `2 N` entries: the entry at index `2 i` is the user
entry holding message `i`, and the entry at index `2 i + 1` is the
assistant entry holding the final output of the turn's orchestration call —
the runner applied, with the session's orchestrator and config, to the
transcript prefix that was passed to it. In particular the roles alternate
user, assistant, user, assistant, ... starting with user. -/
theorem C2_successful_session_transcript (k : String)
    (f : OrchestratorAgent → List Entry → RunConfig → String) (ms : List String) :
    (runSession (okRunner f) (chat_start k).1 ms).1.chat_history.length = 2 * ms.length ∧
    ∀ (i : Nat) (hi : i < ms.length),
      (runSession (okRunner f) (chat_start k).1 ms).1.chat_history[2 * i]?
          = some (userE (ms.get ⟨i, hi⟩)) ∧
      (runSession (okRunner f) (chat_start k).1 ms).1.chat_history[2 * i + 1]?
          = some (asstE (f (chat_start k).1.orchestrator
              ((runSession (okRunner f) (chat_start k).1 ms).1.chat_history.take (2 * i + 1))
              (chat_start k).1.config)) := by
  have hrw := runSession_ok_chat_history f ms (chat_start k).1
  have hnil : (chat_start k).1.chat_history = ([] : List Entry) := rfl
  rw [hnil] at hrw
  constructor
  · rw [hrw]
    have := buildT_length (fun h => f (chat_start k).1.orchestrator h (chat_start k).1.config) ms []
    simpa using this
  · intro i hi
    have h := buildT_getElem (fun h => f (chat_start k).1.orchestrator h (chat_start k).1.config)
      ms [] i hi
    rw [hrw]
    simpa using h

/-- Witness for C2 at a concrete one-message session. -/
theorem C2_successful_session_transcript_witness :
    (runSession (okRunner (fun _ _ _ => "ans")) (chat_start "k").1 ["hi"]).1.chat_history.length
        = 2 * (["hi"] : List String).length ∧
    (runSession (okRunner (fun _ _ _ => "ans")) (chat_start "k").1 ["hi"]).1.chat_history[2 * 0]?
        = some (userE ((["hi"] : List String).get ⟨0, by decide⟩)) :=
  ⟨(C2_successful_session_transcript "k" (fun _ _ _ => "ans") ["hi"]).1,
   ((C2_successful_session_transcript "k" (fun _ _ _ => "ans") ["hi"]).2 0 (by decide)).1⟩

end HeadSpecialistAI
